import Mathlib

/-!
Verification of the `KraTabs` field widget and its `AddKraDialog` from
`hr_employee_evaluation/static/src/components/kra_tabs/kra_tabs.js`
(the canonical, nested-object-graph variant of the widget).

Shallow embedding conventions:
* The widget's reactive state (`activeTabIndex`, `isDeleting`,
  `showRestorePanel`) and the record accessor's nested KRA/KPI collection
  are gathered in one `Widget` state; each asynchronous handler is embedded
  as a pure state-transition function, with the awaited accessor call
  applied synchronously (the spec's ordering guarantee: each operation is
  awaited to completion before the next reads the collections).
* JavaScript numbers used for `score`/`weightage`/`sequence` are embedded
  as `Int`; a field holding a falsy/absent value is `Option.none`, so
  the JS coercion `x || 0` becomes `Option.getD x 0`.
* A many2one value (`template_kpi_id`) is embedded by its id (`Option Nat`,
  `none` standing for JavaScript `false`/unset).
* A record's unsaved ("virtual") status (`record.isNew`) is a Boolean on
  the row.
* Accessor calls that can reject are given an extra `ok : Bool` argument;
  the deletion handlers return the widget state paired with the list of
  console-error messages they logged (the `catch` branches), so "logged and
  swallowed" is visible in the result. Totality of the Lean function embeds
  "the failure is not rethrown".
* Rows passed to a handler by object identity in JS are addressed by their
  index in the owning collection here; an out-of-range index models a stale
  reference and leaves the state unchanged.
-/

/-- Data fields of one KPI row (`kpiRecord.data`). Defaults mirror the
server-side defaults the spec's data model states (`is_selected` defaults
to true, text fields default to empty, numeric fields unset). -/
structure KPIData where
  name : String := ""
  description : String := ""
  criteria : String := ""
  weightage : Option Int := none
  score : Option Int := none
  is_selected : Bool := true
  is_clone : Bool := false
  template_kpi_id : Option Nat := none
  target : String := ""
  planning_remarks : String := ""
deriving Repr, DecidableEq

/-- One KPI row of the nested collection: `isNew` is the record's
unsaved/virtual marker, `data` its field values. -/
structure KPI where
  isNew : Bool := true
  data : KPIData
deriving Repr, DecidableEq

/-- Data fields of one KRA row (`kra.data`): `name`, `sequence` and the
nested `kpi_ids` collection. `none` models a falsy/unset field value. -/
structure KRAData where
  name : Option String := none
  sequence : Option Int := none
  kpi_ids : List KPI := []
deriving Repr, DecidableEq

/-- One KRA row of the record's nested collection. -/
structure KRA where
  data : KRAData
deriving Repr, DecidableEq

/-- The widget's props that the embedded operations read: the record's
model identity (`props.record.resModel`), the `readonly` flag, the
per-instance `options.mode`, and the field-level
`activeFields[name].options.mode` fallback. A `none` mode stands for any
missing link in the corresponding JS optional-chain. -/
structure Env where
  resModel : String
  readonly : Bool := false
  optionsMode : Option String := none
  fieldOptionsMode : Option String := none
deriving Repr, DecidableEq

/-- The widget's mutable state plus the accessor's current KRA collection
(`props.record.data[name].records`). -/
structure Widget where
  kraRecords : List KRA := []
  activeTabIndex : Nat := 0
  isDeleting : Bool := false
  showRestorePanel : Bool := false
deriving Repr, DecidableEq

/-- JavaScript truthiness of an optional string option: `some ""` and
`none` are both falsy. -/
def truthyStr : Option String → Option String
  | some s => if s = "" then none else some s
  | none => none

/-- The `mode` getter: template model wins, then a truthy per-instance
`options.mode`, then a truthy field-level `options.mode`, else
`"employee"`. A pure function of its three inputs. -/
def resolveMode (resModel : String) (optionsMode fieldOptionsMode : Option String) : String :=
  if resModel = "appraisal.template" then "template"
  else
    match truthyStr optionsMode with
    | some m => m
    | none =>
      match truthyStr fieldOptionsMode with
      | some m => m
      | none => "employee"

/-- The widget's current mode, from its props. -/
def kraMode (env : Env) : String :=
  resolveMode env.resModel env.optionsMode env.fieldOptionsMode

/-- `AddKraDialog` reactive state: the typed name and the error field. -/
structure DialogState where
  kraName : String := ""
  error : String := ""
deriving Repr, DecidableEq

/-- JavaScript `String.prototype.trim`: strips leading and trailing
whitespace. Embedded over the character list so that it evaluates by
kernel reduction. -/
def jsTrim (s : String) : String :=
  String.mk (((s.data.dropWhile Char.isWhitespace).reverse.dropWhile Char.isWhitespace).reverse)

/-- Error message for an empty trimmed name. -/
def requiredNameError : String := "KRA name is required"

/-- Error message for a duplicate trimmed name. -/
def duplicateNameError : String := "A KRA with this name already exists"

/-- `AddKraDialog.onConfirm`: trims the typed name, rejects an empty or
duplicate name by setting the error field and returning, otherwise hands
the trimmed name to the confirmation callback and closes. The result is
(new dialog state, value passed to `props.onConfirm` if it was invoked,
whether `props.close()` was called); the `Option` carries at most one
callback invocation. -/
def addKraConfirm (existingNames : Option (List String)) (s : DialogState) :
    DialogState × Option String × Bool :=
  let name := jsTrim s.kraName
  if name = "" then
    ({ s with error := requiredNameError }, none, false)
  else if (match existingNames with
           | some l => l.contains name
           | none => false) then
    ({ s with error := duplicateNameError }, none, false)
  else
    (s, some name, true)

/-- Replace the element at index `i` by `f` applied to it; out of range
leaves the list unchanged. -/
def modifyIdx {α : Type} : List α → Nat → (α → α) → List α
  | [], _, _ => []
  | a :: as, 0, f => f a :: as
  | a :: as, n + 1, f => a :: modifyIdx as n f

/-- `Math.max` over a spread of values, with the empty case unreachable
behind the caller's non-empty guard (embedded as 0 there). -/
def maxOrZero : List Int → Int
  | [] => 0
  | a :: as => as.foldl max a

/-- The `activeKRA` getter: `kraRecords[activeTabIndex] || null`. -/
def activeKRA (w : Widget) : Option KRA :=
  w.kraRecords[w.activeTabIndex]?

/-- The `activeKPIs` getter: `activeKRA?.data.kpi_ids?.records || []`. -/
def activeKPIs (w : Widget) : List KPI :=
  match activeKRA w with
  | some kra => kra.data.kpi_ids
  | none => []

/-- The `activeDeselectedKPIs` getter: soft-deleted rows shown by the
restore panel. -/
def activeDeselectedKPIs (w : Widget) : List KPI :=
  (activeKPIs w).filter (fun kpi => !kpi.data.is_selected)

/-- The `activeTotalScore` getter: in template mode the sum of `score`
over all KPIs of the active KRA, otherwise the sum of `weightage` over the
selected ones, each falsy value coerced to 0 by `|| 0`. -/
def activeTotalScore (env : Env) (w : Widget) : Int :=
  if kraMode env = "template" then
    (activeKPIs w).foldl (fun sum kpi => sum + kpi.data.score.getD 0) 0
  else
    ((activeKPIs w).filter (fun kpi => kpi.data.is_selected)).foldl
      (fun sum kpi => sum + kpi.data.weightage.getD 0) 0

/-- `setActiveTab`: stores the clicked index with no range check. -/
def setActiveTab (w : Widget) (index : Nat) : Widget :=
  { w with activeTabIndex := index }

/-- The `onWillUpdateProps` reconciliation: clamp the active index to the
incoming collection's last position when it overflows, reset it to 0 when
the collection became empty, otherwise leave it alone. -/
def reconcileOnProps (w : Widget) (nextKraCount : Nat) : Widget :=
  if w.activeTabIndex ≥ nextKraCount ∧ nextKraCount > 0 then
    { w with activeTabIndex := nextKraCount - 1 }
  else if nextKraCount = 0 then
    { w with activeTabIndex := 0 }
  else w

/-- Replace the active KRA row (the one `activeKRA` designates) by `kra`. -/
def setActiveKRARow (w : Widget) (kra : KRA) : Widget :=
  { w with kraRecords := w.kraRecords.set w.activeTabIndex kra }

/-- `createKRA`: append a `[0, 0, {name, sequence}]` row whose sequence is
`max(existing sequences, each falsy coerced to 0) + 10` (0 when the
collection is empty), then activate the appended row's tab. -/
def createKRA (w : Widget) (kraName : String) : Widget :=
  let maxSequence : Int :=
    if w.kraRecords.length > 0 then
      maxOrZero (w.kraRecords.map (fun k => k.data.sequence.getD 0))
    else 0
  let kras := w.kraRecords ++
    [{ data := { name := some kraName, sequence := some (maxSequence + 10), kpi_ids := [] } }]
  { w with kraRecords := kras, activeTabIndex := kras.length - 1 }

/-- `onAddKRA`: gated on read-only and template mode; opens the dialog
with the truthy existing names. The result is the `existingNames` payload
handed to the dialog, or `none` when the handler returned early (the
confirmation callback itself runs `createKRA`). -/
def onAddKRA (env : Env) (w : Widget) : Option (List String) :=
  if env.readonly then none
  else if kraMode env ≠ "template" then none
  else some ((w.kraRecords.map (fun kra => truthyStr kra.data.name)).reduceOption)

/-- The `[0, 0, {...}]` payload of `onDuplicateKPI`: copies
name/description/criteria, resets weightage, carries the source's template
origin id (`template_kpi_id[0]` when truthy, `false` otherwise), marks the
row selected and cloned, and empties target and planning remarks. The
unsaved new row keeps the server defaults for the untouched fields. -/
def duplicateKPIRow (source : KPI) : KPI :=
  { isNew := true,
    data := { name := source.data.name,
              description := source.data.description,
              criteria := source.data.criteria,
              weightage := some 0,
              template_kpi_id :=
                match source.data.template_kpi_id with
                | some originId => some originId
                | none => none,
              is_selected := true,
              is_clone := true,
              target := "",
              planning_remarks := "" } }

/-- `onDuplicateKPI`: gated only on read-only and an existing active KRA;
appends the duplicate row to the active KRA's `kpi_ids`. The source row is
addressed by its index `j` in that collection. -/
def onDuplicateKPI (env : Env) (w : Widget) (j : Nat) : Widget :=
  if env.readonly then w
  else
    match activeKRA w with
    | none => w
    | some kra =>
      match kra.data.kpi_ids[j]? with
      | none => w
      | some source =>
        setActiveKRARow w
          { kra with data :=
              { kra.data with kpi_ids := kra.data.kpi_ids ++ [duplicateKPIRow source] } }

/-- Console message of `onDeleteKRA`'s catch branch. -/
def kraDeleteErrorMsg : String := "Error deleting KRA:"

/-- Console message of `onDeleteKPI`'s catch branch. -/
def kpiDeleteErrorMsg : String := "Error deleting KPI:"

/-- `onDeleteKRA`: gated on read-only, an existing active KRA, the
`isDeleting` busy flag, and template mode. On success the active row is
removed and the tab index reconciled against the shrunk collection; on
accessor failure (`ok = false`) the error is logged and swallowed. The
`finally` branch clears `isDeleting` on both paths. -/
def onDeleteKRA (env : Env) (w : Widget) (ok : Bool) : Widget × List String :=
  if env.readonly then (w, [])
  else
    match activeKRA w with
    | none => (w, [])
    | some _ =>
      if w.isDeleting then (w, [])
      else if kraMode env ≠ "template" then (w, [])
      else if ok then
        let kras := w.kraRecords.eraseIdx w.activeTabIndex
        let newLength := kras.length
        let index :=
          if w.activeTabIndex ≥ newLength ∧ newLength > 0 then newLength - 1
          else if newLength = 0 then 0
          else w.activeTabIndex
        ({ w with kraRecords := kras, activeTabIndex := index, isDeleting := false }, [])
      else ({ w with isDeleting := false }, [kraDeleteErrorMsg])

/-- `onAddKPI`: gated on read-only, an existing active KRA, and template
mode; appends a blank KPI row (`name/description/criteria = ""`,
`score = 0`, other fields at server defaults) to the active KRA. -/
def onAddKPI (env : Env) (w : Widget) : Widget :=
  if env.readonly then w
  else
    match activeKRA w with
    | none => w
    | some kra =>
      if kraMode env ≠ "template" then w
      else
        setActiveKRARow w
          { kra with data :=
              { kra.data with kpi_ids := kra.data.kpi_ids ++
                  [{ isNew := true,
                     data := { name := "", description := "", criteria := "",
                               score := some 0 } }] } }

/-- Soft-delete patch of `onDeleteKPI`'s employee branch:
`kpiRecord.update({ is_selected: false })`. -/
def deselectKPI (kpi : KPI) : KPI :=
  { kpi with data := { kpi.data with is_selected := false } }

/-- `onDeleteKPI`: gated on read-only, an existing active KRA, the
`isDeleting` busy flag, and supervisor mode. Template mode hard-deletes
the row; employee mode hard-deletes an unsaved (`isNew`) or cloned row and
soft-deletes (deselects) an inherited one; any other mode string reaches
the `try` block but issues no accessor call. `ok = false` models the
accessor call rejecting: the catch branch logs, the finally branch clears
`isDeleting` on every path. The row is addressed by its index `j` in the
active KRA's `kpi_ids`. -/
def onDeleteKPI (env : Env) (w : Widget) (j : Nat) (ok : Bool) : Widget × List String :=
  if env.readonly then (w, [])
  else
    match activeKRA w with
    | none => (w, [])
    | some kra =>
      if w.isDeleting then (w, [])
      else if kraMode env = "supervisor" then (w, [])
      else if kraMode env = "template" then
        if ok then
          ({ setActiveKRARow w
               { kra with data :=
                   { kra.data with kpi_ids := kra.data.kpi_ids.eraseIdx j } }
             with isDeleting := false }, [])
        else ({ w with isDeleting := false }, [kpiDeleteErrorMsg])
      else if kraMode env = "employee" then
        match kra.data.kpi_ids[j]? with
        | none => ({ w with isDeleting := false }, [])
        | some kpiRecord =>
          if kpiRecord.isNew || kpiRecord.data.is_clone then
            if ok then
              ({ setActiveKRARow w
                   { kra with data :=
                       { kra.data with kpi_ids := kra.data.kpi_ids.eraseIdx j } }
                 with isDeleting := false }, [])
            else ({ w with isDeleting := false }, [kpiDeleteErrorMsg])
          else
            if ok then
              ({ setActiveKRARow w
                   { kra with data :=
                       { kra.data with kpi_ids :=
                           (modifyIdx kra.data.kpi_ids j deselectKPI) } }
                 with isDeleting := false }, [])
            else ({ w with isDeleting := false }, [kpiDeleteErrorMsg])
      else ({ w with isDeleting := false }, [])

/-- `onRestoreKPI`: gated on read-only only; re-selects the row at index
`j` of the active KRA's collection. -/
def onRestoreKPI (env : Env) (w : Widget) (j : Nat) : Widget :=
  if env.readonly then w
  else
    match activeKRA w with
    | none => w
    | some kra =>
      setActiveKRARow w
        { kra with data :=
            { kra.data with kpi_ids :=
                (modifyIdx kra.data.kpi_ids j
                  (fun kpi => { kpi with data := { kpi.data with is_selected := true } })) } }

/-- `onToggleRestorePanel`: flips the restore-panel visibility flag
(UI-only, no gate). -/
def onToggleRestorePanel (w : Widget) : Widget :=
  { w with showRestorePanel := !w.showRestorePanel }

/-- The single-field patch of `onKPIFieldChange`: `score`/`weightage`
inputs go through `parseFloat(value) || 0` — embedded as `num.getD 0`
where `num = none` models `NaN` — and the remaining editable fields take
the raw string. -/
def applyKPIFieldChange (d : KPIData) (fieldName : String) (num : Option Int)
    (raw : String) : KPIData :=
  if fieldName = "score" then { d with score := some (num.getD 0) }
  else if fieldName = "weightage" then { d with weightage := some (num.getD 0) }
  else if fieldName = "name" then { d with name := raw }
  else if fieldName = "description" then { d with description := raw }
  else if fieldName = "criteria" then { d with criteria := raw }
  else if fieldName = "target" then { d with target := raw }
  else if fieldName = "planning_remarks" then { d with planning_remarks := raw }
  else d

/-- `onKPIFieldChange`: gated on read-only only; writes the coerced value
into the row at index `j` of the active KRA's collection. -/
def onKPIFieldChange (env : Env) (w : Widget) (j : Nat) (fieldName : String)
    (num : Option Int) (raw : String) : Widget :=
  if env.readonly then w
  else
    match activeKRA w with
    | none => w
    | some kra =>
      setActiveKRARow w
        { kra with data :=
            { kra.data with kpi_ids :=
                (modifyIdx kra.data.kpi_ids j
                  (fun kpi =>
                    { kpi with data := applyKPIFieldChange kpi.data fieldName num raw })) } }

/-- `onKPICheckboxChange`: gated on read-only only; writes the checkbox
state into `is_selected` of the row at index `j` of the active KRA's
collection. -/
def onKPICheckboxChange (env : Env) (w : Widget) (j : Nat) (checked : Bool) : Widget :=
  if env.readonly then w
  else
    match activeKRA w with
    | none => w
    | some kra =>
      setActiveKRARow w
        { kra with data :=
            { kra.data with kpi_ids :=
                (modifyIdx kra.data.kpi_ids j
                  (fun kpi => { kpi with data := { kpi.data with is_selected := checked } })) } }

/-! Concrete sample records used by the witness theorems. -/

/-- Props of a template-authoring instance (template model record). -/
def envTemplate : Env := { resModel := "appraisal.template" }

/-- Props of an employee-planning instance. -/
def envEmployee : Env := { resModel := "hr.appraisal", optionsMode := some "employee" }

/-- Props of a supervisor-review instance. -/
def envSupervisor : Env := { resModel := "hr.appraisal", optionsMode := some "supervisor" }

/-- Props of a read-only employee instance. -/
def envReadonly : Env :=
  { resModel := "hr.appraisal", readonly := true, optionsMode := some "employee" }

/-- A persisted template-inherited KPI row. -/
def kpiInherited : KPI :=
  { isNew := false,
    data := { name := "Quality", weightage := some 5, score := some 7,
              template_kpi_id := some 3 } }

/-- A persisted cloned KPI row, currently deselected. -/
def kpiClone : KPI :=
  { isNew := false,
    data := { name := "Quality (copy)", weightage := some 3, score := some 2,
              is_selected := false, is_clone := true } }

/-- A KRA holding the two sample KPIs. -/
def kraSales : KRA :=
  { data := { name := some "Sales", sequence := some 10,
              kpi_ids := [kpiInherited, kpiClone] } }

/-- An empty KRA with the next sequence slot. -/
def kraOps : KRA := { data := { name := some "Ops", sequence := some 20, kpi_ids := [] } }

/-- A widget showing the single sample KRA. -/
def widgetSales : Widget := { kraRecords := [kraSales] }

/-- A widget with two KRAs and the second tab active. -/
def widgetTwo : Widget := { kraRecords := [kraSales, kraOps], activeTabIndex := 1 }

/-- A widget whose stored tab index overflows its collection. -/
def widgetStale : Widget := { kraRecords := [kraSales], activeTabIndex := 5 }

/-! Helper lemmas about the list combinators of the embedding. -/

/-- A left fold accumulating `f` over a list is the sum of the mapped list. -/
theorem foldl_add_getD_eq_sum (f : KPI → Int) (l : List KPI) :
    ∀ i : Int, l.foldl (fun sum kpi => sum + f kpi) i = i + (l.map f).sum := by
  induction l with
  | nil => intro i; simp
  | cons a t ih =>
    intro i
    simp only [List.foldl_cons, List.map_cons, List.sum_cons, ih]
    ring

/-- `modifyIdx` rewrites exactly the addressed element. -/
theorem modifyIdx_get_eq {α : Type} (f : α → α) :
    ∀ (l : List α) (j : Nat) (a : α), l[j]? = some a →
      (modifyIdx l j f)[j]? = some (f a) := by
  intro l
  induction l with
  | nil => intro j a h; simp at h
  | cons x t ih =>
    intro j a h
    cases j with
    | zero => simp at h; simp [modifyIdx, h]
    | succ n => simp at h; simpa [modifyIdx] using ih n a h
/-- C3: the mode resolver returns `"template"` whenever the record's model
is the template model, overriding any supplied mode option; otherwise the
per-instance option's mode when supplied (truthy), otherwise the
field-level default option's mode when supplied (truthy), otherwise
`"employee"`. Being a Lean function of exactly these three inputs, it is
pure and has no side effects. -/
theorem mode_resolver_priority (resModel : String) (om fm : Option String) (m : String) :
    (resModel = "appraisal.template" → resolveMode resModel om fm = "template") ∧
    (resModel ≠ "appraisal.template" → truthyStr om = some m →
      resolveMode resModel om fm = m) ∧
    (resModel ≠ "appraisal.template" → truthyStr om = none → truthyStr fm = some m →
      resolveMode resModel om fm = m) ∧
    (resModel ≠ "appraisal.template" → truthyStr om = none → truthyStr fm = none →
      resolveMode resModel om fm = "employee") := by
  refine ⟨fun h => by simp [resolveMode, h], fun h hm => ?_, fun h hm hf => ?_, fun h hm hf => ?_⟩
  · simp [resolveMode, h, hm]
  · simp [resolveMode, h, hm, hf]
  · simp [resolveMode, h, hm, hf]

/-- Witness for C3: on the template model with a contrary supplied mode the
resolver still answers `"template"`; with the template-model hypothesis
refuted, a supplied `"supervisor"` option wins. -/
theorem mode_resolver_priority_witness :
    resolveMode "appraisal.template" (some "supervisor") none = "template" ∧
    resolveMode "hr.appraisal" (some "supervisor") none = "supervisor" :=
  ⟨(mode_resolver_priority "appraisal.template" (some "supervisor") none "supervisor").1 rfl,
   (mode_resolver_priority "hr.appraisal" (some "supervisor") none "supervisor").2.1
     (by decide) (by decide)⟩

/-- C7: submitting the dialog with an empty trimmed name, or a trimmed name
present in the caller-supplied exclusion list, sets a non-empty error,
invokes no callback and does not close; otherwise it invokes the callback
exactly once with the trimmed name and closes. -/
theorem add_kra_dialog_confirm (ex : List String) (s : DialogState) :
    (jsTrim s.kraName = "" →
      (addKraConfirm (some ex) s).2.1 = none ∧
      (addKraConfirm (some ex) s).2.2 = false ∧
      (addKraConfirm (some ex) s).1.error ≠ "") ∧
    (jsTrim s.kraName ≠ "" → jsTrim s.kraName ∈ ex →
      (addKraConfirm (some ex) s).2.1 = none ∧
      (addKraConfirm (some ex) s).2.2 = false ∧
      (addKraConfirm (some ex) s).1.error ≠ "") ∧
    (jsTrim s.kraName ≠ "" → jsTrim s.kraName ∉ ex →
      (addKraConfirm (some ex) s).2.1 = some (jsTrim s.kraName) ∧
      (addKraConfirm (some ex) s).2.2 = true) := by
  refine ⟨fun h => ?_, fun h hc => ?_, fun h hc => ?_⟩
  · simp [addKraConfirm, h, requiredNameError]
  · simp [addKraConfirm, h, hc, duplicateNameError]
  · simp [addKraConfirm, h, hc]

/-- Witness for C7: the name `" Sales "` trims to `"Sales"`, which is
already in the exclusion list, so the duplicate branch fires. -/
theorem add_kra_dialog_confirm_witness :
    (addKraConfirm (some ["Sales"]) { kraName := " Sales ", error := "" }).2.1 = none ∧
    (addKraConfirm (some ["Sales"]) { kraName := " Sales ", error := "" }).2.2 = false ∧
    (addKraConfirm (some ["Sales"]) { kraName := " Sales ", error := "" }).1.error ≠ "" :=
  (add_kra_dialog_confirm ["Sales"] { kraName := " Sales ", error := "" }).2.1
    (by decide) (by decide)


/-- C5: in template mode the active total score is the sum of `score`
over all of the active KRA's KPIs regardless of `is_selected`; in
employee and supervisor modes it is the sum of `weightage` over the
selected KPIs only, a missing score/weightage counting as 0. -/
theorem total_score_formula (env : Env) (w : Widget) :
    (kraMode env = "template" →
      activeTotalScore env w =
        ((activeKPIs w).map (fun kpi => kpi.data.score.getD 0)).sum) ∧
    (kraMode env = "employee" ∨ kraMode env = "supervisor" →
      activeTotalScore env w =
        (((activeKPIs w).filter (fun kpi => kpi.data.is_selected)).map
          (fun kpi => kpi.data.weightage.getD 0)).sum) := by
  constructor
  · intro h
    simp [activeTotalScore, h, foldl_add_getD_eq_sum]
  · intro h
    have hne : kraMode env ≠ "template" := by
      rcases h with h | h <;> rw [h] <;> decide
    simp [activeTotalScore, hne, foldl_add_getD_eq_sum]

/-- Witness for C5: the spec's scenario — KPIs with weightage 5 (selected)
and 3 (deselected) in employee mode total 5. -/
theorem total_score_formula_witness :
    kraMode envEmployee = "employee" ∧
    activeTotalScore envEmployee widgetSales =
      (((activeKPIs widgetSales).filter (fun kpi => kpi.data.is_selected)).map
        (fun kpi => kpi.data.weightage.getD 0)).sum ∧
    activeTotalScore envEmployee widgetSales = 5 :=
  ⟨by decide,
   (total_score_formula envEmployee widgetSales).2 (Or.inl (by decide)),
   by decide⟩

/-- C4: `createKRA` appends a row whose sequence is the maximum of the
existing sequences (a missing sequence read as 0, and 0 for an empty
collection) plus 10, and activates the appended row's tab (the new length
minus one). The closed conjunct is the spec's scenario: from one KRA with
sequence 10, adding "Ops" yields sequences 10 and 20 with the new tab
active. -/
theorem create_kra_appends (w : Widget) (kraName : String) :
    createKRA w kraName =
      { w with
        kraRecords := w.kraRecords ++
          [{ data := { name := some kraName,
                       sequence := some
                         (maxOrZero (w.kraRecords.map (fun k => k.data.sequence.getD 0)) + 10),
                       kpi_ids := [] } }],
        activeTabIndex := w.kraRecords.length } ∧
    createKRA { kraRecords := [kraSales] } "Ops" =
      { kraRecords := [kraSales, kraOps], activeTabIndex := 1 } := by
  constructor
  · cases hw : w.kraRecords with
    | nil => simp [createKRA, hw, maxOrZero]
    | cons a t => simp [createKRA, hw]
  · decide

/-- C10: `setActiveTab` stores any index unconditionally with no range
check; an out-of-range stored index makes `activeKRA` read as `null`; and
with a `null` active KRA every operation requiring one degrades to a
no-op. -/
theorem unchecked_tab_selection (w : Widget) (env : Env) (i j : Nat) (ok : Bool) :
    (setActiveTab w i).activeTabIndex = i ∧
    (w.kraRecords.length ≤ w.activeTabIndex → activeKRA w = none) ∧
    (activeKRA w = none →
      onAddKPI env w = w ∧
      onDuplicateKPI env w j = w ∧
      onDeleteKRA env w ok = (w, []) ∧
      onDeleteKPI env w j ok = (w, [])) := by
  refine ⟨rfl, fun h => ?_, fun h => ⟨?_, ?_, ?_, ?_⟩⟩
  · simp [activeKRA, List.getElem?_eq_none h]
  · simp [onAddKPI, h]
  · simp [onDuplicateKPI, h]
  · simp [onDeleteKRA, h]
  · simp [onDeleteKPI, h]

/-- Witness for C10: with a stored index of 5 over a single-KRA
collection, `activeKRA` is `null` and the dependent operations leave the
widget untouched. -/
theorem unchecked_tab_selection_witness :
    (setActiveTab widgetStale 9).activeTabIndex = 9 ∧
    onAddKPI envTemplate widgetStale = widgetStale ∧
    onDuplicateKPI envTemplate widgetStale 0 = widgetStale ∧
    onDeleteKRA envTemplate widgetStale true = (widgetStale, []) ∧
    onDeleteKPI envTemplate widgetStale 0 true = (widgetStale, []) :=
  ⟨(unchecked_tab_selection widgetStale envTemplate 9 0 true).1,
   (unchecked_tab_selection widgetStale envTemplate 9 0 true).2.2 (by decide)⟩

/-- C1: with the guards passed (not read-only, an active KRA, no delete in
flight) and the accessor resolving, `onDeleteKPI` removes the addressed
row from the active KRA's collection in template mode; in employee mode it
removes the row when it is unsaved (`isNew`) or cloned, and otherwise
keeps it in place with `is_selected` flipped to false; in supervisor mode
it is a no-op. -/
theorem delete_kpi_mode_policy (env : Env) (w : Widget) (kra : KRA) (j : Nat) (kpi : KPI)
    (hro : env.readonly = false) (hk : activeKRA w = some kra)
    (hd : w.isDeleting = false) (hj : kra.data.kpi_ids[j]? = some kpi) :
    (kraMode env = "template" →
      (onDeleteKPI env w j true).1.kraRecords =
        w.kraRecords.set w.activeTabIndex
          { kra with data := { kra.data with kpi_ids := kra.data.kpi_ids.eraseIdx j } }) ∧
    (kraMode env = "employee" → (kpi.isNew = true ∨ kpi.data.is_clone = true) →
      (onDeleteKPI env w j true).1.kraRecords =
        w.kraRecords.set w.activeTabIndex
          { kra with data := { kra.data with kpi_ids := kra.data.kpi_ids.eraseIdx j } }) ∧
    (kraMode env = "employee" → kpi.isNew = false → kpi.data.is_clone = false →
      (onDeleteKPI env w j true).1.kraRecords =
        w.kraRecords.set w.activeTabIndex
          { kra with data := { kra.data with kpi_ids :=
              (modifyIdx kra.data.kpi_ids j deselectKPI) } } ∧
      (modifyIdx kra.data.kpi_ids j deselectKPI)[j]? = some (deselectKPI kpi) ∧
      (deselectKPI kpi).data.is_selected = false) ∧
    (kraMode env = "supervisor" → onDeleteKPI env w j true = (w, [])) := by
  refine ⟨fun hm => ?_, fun hm hnewclone => ?_, fun hm hnew hclone => ?_, fun hm => ?_⟩
  · have h1 : kraMode env ≠ "supervisor" := by rw [hm]; decide
    simp [onDeleteKPI, hro, hk, hd, hm, h1, setActiveKRARow]
  · have h1 : kraMode env ≠ "supervisor" := by rw [hm]; decide
    have h2 : kraMode env ≠ "template" := by rw [hm]; decide
    have hb : (kpi.isNew || kpi.data.is_clone) = true := by
      rcases hnewclone with h | h <;> simp [h]
    simp [onDeleteKPI, hro, hk, hd, hm, h1, h2, hj, hb, setActiveKRARow]
  · have h1 : kraMode env ≠ "supervisor" := by rw [hm]; decide
    have h2 : kraMode env ≠ "template" := by rw [hm]; decide
    refine ⟨?_, modifyIdx_get_eq deselectKPI kra.data.kpi_ids j kpi hj, rfl⟩
    simp [onDeleteKPI, hro, hk, hd, hm, h1, h2, hj, hnew, hclone, setActiveKRARow]
  · simp [onDeleteKPI, hro, hk, hd, hm]

/-- Witness for C1: in employee mode, deleting the cloned row at index 1
of the sample KRA removes it from the collection. -/
theorem delete_kpi_mode_policy_witness :
    (onDeleteKPI envEmployee widgetSales 1 true).1.kraRecords =
      widgetSales.kraRecords.set widgetSales.activeTabIndex
        { kraSales with data := { kraSales.data with
            kpi_ids := kraSales.data.kpi_ids.eraseIdx 1 } } :=
  (delete_kpi_mode_policy envEmployee widgetSales kraSales 1 kpiClone
    (by decide) (by decide) (by decide) (by decide)).2.1 (by decide) (Or.inr (by decide))


/-- The reconciliation's effect on the stored index, as one conditional. -/
theorem reconcileOnProps_activeTabIndex (w : Widget) (n : Nat) :
    (reconcileOnProps w n).activeTabIndex =
      if w.activeTabIndex ≥ n ∧ n > 0 then n - 1
      else if n = 0 then 0
      else w.activeTabIndex := by
  unfold reconcileOnProps
  split
  · rfl
  · split <;> rfl

/-- C2: the `onWillUpdateProps` reconciliation clamps an overflowing index
to `N - 1` when the incoming collection has `N > 0` rows, resets it to 0
when `N = 0`, and leaves an in-range index unchanged, so the index is in
range afterwards (or 0 for an empty collection); and a KRA deletion
(guards passed, accessor resolving) re-establishes the same bounds against
the shrunk collection. -/
theorem active_tab_index_invariant (w : Widget) (n : Nat) (env : Env) (kra : KRA)
    (hro : env.readonly = false) (hk : activeKRA w = some kra)
    (hd : w.isDeleting = false) (hm : kraMode env = "template") :
    ((n > 0 → (reconcileOnProps w n).activeTabIndex < n) ∧
     (n = 0 → (reconcileOnProps w n).activeTabIndex = 0) ∧
     (w.activeTabIndex ≥ n → n > 0 → (reconcileOnProps w n).activeTabIndex = n - 1) ∧
     (w.activeTabIndex < n → (reconcileOnProps w n).activeTabIndex = w.activeTabIndex)) ∧
    (((onDeleteKRA env w true).1.kraRecords.length > 0 →
        (onDeleteKRA env w true).1.activeTabIndex <
          (onDeleteKRA env w true).1.kraRecords.length) ∧
     ((onDeleteKRA env w true).1.kraRecords.length = 0 →
        (onDeleteKRA env w true).1.activeTabIndex = 0)) := by
  constructor
  · refine ⟨fun h => ?_, fun h => ?_, fun h1 h2 => ?_, fun h => ?_⟩ <;>
      · rw [reconcileOnProps_activeTabIndex]
        split
        · omega
        · first
          | (split <;> omega)
          | omega
  · have hres :
        (onDeleteKRA env w true).1.kraRecords = w.kraRecords.eraseIdx w.activeTabIndex ∧
        (onDeleteKRA env w true).1.activeTabIndex =
          (if w.activeTabIndex ≥ (w.kraRecords.eraseIdx w.activeTabIndex).length ∧
              (w.kraRecords.eraseIdx w.activeTabIndex).length > 0 then
             (w.kraRecords.eraseIdx w.activeTabIndex).length - 1
           else if (w.kraRecords.eraseIdx w.activeTabIndex).length = 0 then 0
           else w.activeTabIndex) := by
      simp [onDeleteKRA, hro, hk, hd, hm]
    rw [hres.1, hres.2]
    constructor <;>
      · intro h
        split
        · omega
        · first
          | (split <;> omega)
          | omega

/-- Witness for C2: deleting the active second KRA of two leaves one KRA
with the index clamped in range; reconciling the same widget against an
incoming single-KRA collection clamps the index to 0. -/
theorem active_tab_index_invariant_witness :
    (reconcileOnProps widgetTwo 1).activeTabIndex = 1 - 1 ∧
    (onDeleteKRA envTemplate widgetTwo true).1.activeTabIndex <
      (onDeleteKRA envTemplate widgetTwo true).1.kraRecords.length :=
  ⟨(active_tab_index_invariant widgetTwo 1 envTemplate kraOps
      (by decide) (by decide) (by decide) (by decide)).1.2.2.1 (by decide) (by decide),
   (active_tab_index_invariant widgetTwo 1 envTemplate kraOps
      (by decide) (by decide) (by decide) (by decide)).2.1 (by decide)⟩

/-- C9: for both deletion handlers, invocation while `isDeleting` is true
is a no-op; starting from a quiescent widget the `finally` branch always
leaves `isDeleting` false; and an accessor failure (in template mode for
both handlers, and in employee mode for the KPI handler) leaves the state
unchanged while logging a console error, without rethrowing (the handlers
are total functions). -/
theorem delete_busy_flag_lifecycle (env : Env) (w : Widget) (j : Nat) (ok : Bool) :
    (w.isDeleting = true →
      onDeleteKRA env w ok = (w, []) ∧ onDeleteKPI env w j ok = (w, [])) ∧
    (w.isDeleting = false →
      (onDeleteKRA env w ok).1.isDeleting = false ∧
      (onDeleteKPI env w j ok).1.isDeleting = false) ∧
    (∀ kra, env.readonly = false → activeKRA w = some kra → w.isDeleting = false →
      kraMode env = "template" →
      (onDeleteKRA env w false).1 = w ∧ (onDeleteKRA env w false).2 ≠ [] ∧
      (onDeleteKPI env w j false).1 = w ∧ (onDeleteKPI env w j false).2 ≠ []) ∧
    (∀ kra kpi, env.readonly = false → activeKRA w = some kra → w.isDeleting = false →
      kraMode env = "employee" → kra.data.kpi_ids[j]? = some kpi →
      (onDeleteKPI env w j false).1 = w ∧ (onDeleteKPI env w j false).2 ≠ []) := by
  refine ⟨fun hb => ⟨?_, ?_⟩, fun hd => ⟨?_, ?_⟩, fun kra hro hk hd hm => ?_,
    fun kra kpi hro hk hd hm hj => ?_⟩
  · unfold onDeleteKRA
    split
    · rfl
    · split
      · rfl
      · simp [hb]
  · unfold onDeleteKPI
    split
    · rfl
    · split
      · rfl
      · simp [hb]
  · unfold onDeleteKRA
    repeat first
    | exact hd
    | rfl
    | split
  · unfold onDeleteKPI
    repeat first
    | exact hd
    | rfl
    | split
  · have h1 : kraMode env ≠ "supervisor" := by rw [hm]; decide
    have h2 : kraMode env = "template" := hm
    obtain ⟨ka, ti, del, panel⟩ := w
    simp only [Widget.isDeleting] at hd
    subst hd
    refine ⟨?_, ?_, ?_, ?_⟩ <;>
      simp [onDeleteKRA, onDeleteKPI, hro, hk, hm, h1, kraDeleteErrorMsg, kpiDeleteErrorMsg]
  · have h1 : kraMode env ≠ "supervisor" := by rw [hm]; decide
    have h2 : kraMode env ≠ "template" := by rw [hm]; decide
    obtain ⟨ka, ti, del, panel⟩ := w
    simp only [Widget.isDeleting] at hd
    subst hd
    constructor <;>
      simp [onDeleteKPI, hro, hk, hm, h1, h2, hj, kpiDeleteErrorMsg]

/-- Witness for C9: a failed template-mode KRA deletion leaves the sample
widget unchanged and logs an error. -/
theorem delete_busy_flag_lifecycle_witness :
    (onDeleteKRA envTemplate widgetSales false).1 = widgetSales ∧
    (onDeleteKRA envTemplate widgetSales false).2 ≠ [] ∧
    (onDeleteKPI envTemplate widgetSales 0 false).1 = widgetSales ∧
    (onDeleteKPI envTemplate widgetSales 0 false).2 ≠ [] :=
  (delete_busy_flag_lifecycle envTemplate widgetSales 0 false).2.2.1 kraSales
    (by decide) (by decide) (by decide) (by decide)

/-- Counterexample to C8 as stated: with the widget writable and the mode
`"employee"` (not `"template"`), the structural operation `onDuplicateKPI`
is not a no-op — it appends a clone to the active KRA. Only the read-only
gate and the active-KRA requirement guard `onDuplicateKPI`; it has no
template-mode check. -/
theorem structural_gating_counterexample :
    envEmployee.readonly = false ∧ kraMode envEmployee = "employee" ∧
    onDuplicateKPI envEmployee widgetSales 0 ≠ widgetSales :=
  ⟨rfl, by decide, by decide⟩

/-- C8 (amended): every record-mutating handler is a no-op when the widget
is read-only; the structural handlers add KRA, delete KRA and add KPI are
additionally no-ops when the mode is not `"template"` (duplicate KPI,
contrary to the original claim, carries no template-mode gate of its own
and relies on caller gating). -/
theorem readonly_and_template_gating (env : Env) (w : Widget) (j : Nat)
    (fieldName raw : String) (num : Option Int) (ok checked : Bool) :
    (env.readonly = true →
      onAddKRA env w = none ∧
      onDeleteKRA env w ok = (w, []) ∧
      onAddKPI env w = w ∧
      onDuplicateKPI env w j = w ∧
      onDeleteKPI env w j ok = (w, []) ∧
      onRestoreKPI env w j = w ∧
      onKPIFieldChange env w j fieldName num raw = w ∧
      onKPICheckboxChange env w j checked = w) ∧
    (kraMode env ≠ "template" →
      onAddKRA env w = none ∧
      onDeleteKRA env w ok = (w, []) ∧
      onAddKPI env w = w) := by
  constructor
  · intro h
    refine ⟨?_, ?_, ?_, ?_, ?_, ?_, ?_, ?_⟩ <;>
      simp [onAddKRA, onDeleteKRA, onAddKPI, onDuplicateKPI, onDeleteKPI,
        onRestoreKPI, onKPIFieldChange, onKPICheckboxChange, h]
  · intro h
    refine ⟨?_, ?_, ?_⟩
    · unfold onAddKRA
      split
      · rfl
      · simp [h]
    · unfold onDeleteKRA
      split
      · rfl
      · split
        · rfl
        · simp [h]
    · unfold onAddKPI
      split
      · rfl
      · split
        · rfl
        · simp [h]

/-- Witness for C8 (amended): in a writable employee-mode widget the three
template-gated structural handlers are no-ops. -/
theorem readonly_and_template_gating_witness :
    onAddKRA envEmployee widgetSales = none ∧
    onDeleteKRA envEmployee widgetSales true = (widgetSales, []) ∧
    onAddKPI envEmployee widgetSales = widgetSales :=
  (readonly_and_template_gating envEmployee widgetSales 0 "name" "x" (some 1) true true).2
    (by decide)

/-- C6: duplicating the row at index `j` of the active KRA (widget
writable, active KRA present) appends a new row whose name, description
and criteria equal the source's, with `weightage = 0`,
`is_selected = true`, `is_clone = true`, empty `target` and
`planning_remarks`, and `template_kpi_id` equal to the source's own
template origin when present (unset otherwise). -/
theorem duplicate_kpi_fields (env : Env) (w : Widget) (kra : KRA) (j : Nat) (source : KPI)
    (hro : env.readonly = false) (hk : activeKRA w = some kra)
    (hj : kra.data.kpi_ids[j]? = some source) :
    onDuplicateKPI env w j =
      setActiveKRARow w
        { kra with data := { kra.data with
            kpi_ids := kra.data.kpi_ids ++ [duplicateKPIRow source] } } ∧
    (duplicateKPIRow source).data.name = source.data.name ∧
    (duplicateKPIRow source).data.description = source.data.description ∧
    (duplicateKPIRow source).data.criteria = source.data.criteria ∧
    (duplicateKPIRow source).data.weightage = some 0 ∧
    (duplicateKPIRow source).data.is_selected = true ∧
    (duplicateKPIRow source).data.is_clone = true ∧
    (duplicateKPIRow source).data.target = "" ∧
    (duplicateKPIRow source).data.planning_remarks = "" ∧
    (duplicateKPIRow source).data.template_kpi_id = source.data.template_kpi_id := by
  refine ⟨by simp [onDuplicateKPI, hro, hk, hj], rfl, rfl, rfl, rfl, rfl, rfl, rfl, rfl, ?_⟩
  unfold duplicateKPIRow
  cases source.data.template_kpi_id <;> simp

/-- Witness for C6: duplicating the inherited sample KPI appends its clone
to the sample KRA. -/
theorem duplicate_kpi_fields_witness :
    onDuplicateKPI envTemplate widgetSales 0 =
      setActiveKRARow widgetSales
        { kraSales with data := { kraSales.data with
            kpi_ids := kraSales.data.kpi_ids ++ [duplicateKPIRow kpiInherited] } } ∧
    (duplicateKPIRow kpiInherited).data.template_kpi_id =
      kpiInherited.data.template_kpi_id :=
  ⟨(duplicate_kpi_fields envTemplate widgetSales kraSales 0 kpiInherited
      (by decide) (by decide) (by decide)).1,
   (duplicate_kpi_fields envTemplate widgetSales kraSales 0 kpiInherited
      (by decide) (by decide) (by decide)).2.2.2.2.2.2.2.2.2⟩
